import Mathlib

/- Shallow embedding of the fenwicks BERT encoder (src/nlp/models.py).
Tensors are carried as explicit dimensions plus a total index function over
rationals; the dimension fields play the role of core.get_shape_list. -/

/-- Rank-2 tensor of natural numbers (token ids, segment-type ids, validity masks). -/
structure T2N where
  d0 : Nat
  d1 : Nat
  val : Nat → Nat → Nat

/-- Rank-2 tensor of rationals (a flattened [rows, cols] float matrix). -/
structure Mat where
  rows : Nat
  cols : Nat
  val : Nat → Nat → ℚ

/-- Rank-1 tensor of rationals. -/
structure T1 where
  d0 : Nat
  val : Nat → ℚ

/-- Rank-3 tensor of rationals, laid out [batch, seq_len, channels]. -/
structure T3 where
  d0 : Nat
  d1 : Nat
  d2 : Nat
  val : Nat → Nat → Nat → ℚ

/-- Default rank-3 tensor, used as the junk value for getLastD. -/
def t3default : T3 := ⟨0, 0, 0, fun _ _ _ => 0⟩

/-- Errors surfaced by the external tensor engine or by the model code:
shape/rank mismatches, invalid hyperparameter combinations, list indexing. -/
inductive TfError where
  | shapeError
  | configError
  | indexError
deriving DecidableEq

/-- Modelled from the spec: the external tensor-execution engine is consumed as a
black box (section 6 collaborators). Its transcendental primitives (exp for softmax,
erf for the exact GELU, reciprocal square roots for layer norm and score scaling) and
its training-mode dropout noise source are fields of this record; everything the
repository computes is expressed over them. -/
structure Engine where
  exp : ℚ → ℚ
  erf : ℚ → ℚ
  rsqrt : ℚ → ℚ
  invSqrt : Nat → ℚ
  noise2 : ℚ → (Nat → Nat → ℚ) → Nat → Nat → ℚ
  noise3 : ℚ → (Nat → Nat → Nat → ℚ) → Nat → Nat → Nat → ℚ

/-- Elementwise sum of two matrices (tf `+` on equal static shapes). -/
def matAdd (a b : Mat) : Mat :=
  ⟨a.rows, a.cols, fun i j => a.val i j + b.val i j⟩

/-- Elementwise sum of two rank-3 tensors (tf `+=` on equal static shapes). -/
def t3Add (a b : T3) : T3 :=
  ⟨a.d0, a.d1, a.d2, fun bi si j => a.val bi si j + b.val bi si j⟩

/-- Sum of a rank-3 tensor and a rank-2 tensor broadcast over the batch axis
(tf `x += pos_emb` with pos_emb of shape [seq_len, c]). -/
def t3AddMat (a : T3) (m : Mat) : T3 :=
  ⟨a.d0, a.d1, a.d2, fun bi si j => a.val bi si j + m.val si j⟩

/-- Matrix product of a matrix with a weight function holding `bcols` columns. -/
def matmulF (a : Mat) (w : Nat → Nat → ℚ) (bcols : Nat) : Mat :=
  ⟨a.rows, bcols, fun i j => ∑ k in Finset.range a.cols, a.val i k * w k j⟩

/-- tf.gather of rows of a table along axis 0 by a flat index function. -/
def gather (table : Nat → Nat → ℚ) (idx : Nat → Nat) (n c : Nat) : Mat :=
  ⟨n, c, fun i j => table (idx i) j⟩

/-- tf.one_hot of a flat id vector with the given depth: row i is the indicator of
ids i among 0..depth-1 (out-of-range ids give an all-zero row). -/
def one_hot (ids : Nat → Nat) (n depth : Nat) : Mat :=
  ⟨n, depth, fun i k => if ids i = k then 1 else 0⟩

/-- Modelled from the spec: core.reshape_to_matrix is not under src; section 2 names
the rank-3 to rank-2 reshape [bs, seq_len, c] to [bs*seq_len, c]. -/
def reshape_to_matrix (x : T3) : Mat :=
  ⟨x.d0 * x.d1, x.d2, fun i j => x.val (i / x.d1) (i % x.d1) j⟩

/-- Modelled from the spec: core.reshape_from_matrix is not under src; section 2 names
the rank-2 to rank-3 reshape back to the original [bs, seq_len, c] shape list. -/
def reshape_from_matrix (d0 d1 d2 : Nat) (m : Mat) : T3 :=
  ⟨d0, d1, d2, fun bi si j => m.val (bi * d1 + si) j⟩

/-- tf.slice(full, [0,0], [r, -1]): the first r rows of a matrix; exceeding the
row extent is rejected by the engine with a shape error. -/
def tfSliceRows (t : Mat) (r : Nat) : Except TfError Mat :=
  if r ≤ t.rows then .ok ⟨r, t.cols, t.val⟩ else .error .shapeError

/-- tf.squeeze(m, axis=1) on a rank-2 tensor: requires the dimension at axis 1 to be
exactly 1, else the engine rejects with a shape error. -/
def tfSqueezeAxis1 (m : Mat) : Except TfError T1 :=
  if m.cols = 1 then .ok ⟨m.rows, fun i => m.val i 0⟩ else .error .shapeError

/-- tf.layers.dense on a rank-2 input: affine map to `units` output channels through
weight function w and bias, then an activation applied elementwise. -/
def dense (x : Mat) (units : Nat) (w : Nat → Nat → ℚ) (bias : Nat → ℚ)
    (act : ℚ → ℚ) : Mat :=
  ⟨x.rows, units, fun i j =>
    act ((∑ k in Finset.range x.cols, x.val i k * w k j) + bias j)⟩

/-- tf.layers.dense applied to a rank-1 input: the engine requires input rank at
least 2 and rejects a rank-1 tensor with a shape error. -/
def denseRank1 (x : T1) (units : Nat) : Except TfError Mat :=
  .error .shapeError

/-- Modelled from the spec: F.dropout is not under src; section 4.1 says dropout is
the identity at inference (probability 0) and a training-only stochastic operation
otherwise, drawn here from the engine noise source. Rank-2 value functions. -/
def dropoutFn (env : Engine) (p : ℚ) (f : Nat → Nat → ℚ) : Nat → Nat → ℚ :=
  if p = 0 then f else env.noise2 p f

/-- Modelled from the spec: dropout on a rank-2 tensor, shape preserved. -/
def dropout2 (env : Engine) (p : ℚ) (x : Mat) : Mat :=
  ⟨x.rows, x.cols, dropoutFn env p x.val⟩

/-- Modelled from the spec: dropout for rank-3 value functions. -/
def dropoutFn3 (env : Engine) (p : ℚ) (f : Nat → Nat → Nat → ℚ) :
    Nat → Nat → Nat → ℚ :=
  if p = 0 then f else env.noise3 p f

/-- Modelled from the spec: dropout on a rank-3 tensor, shape preserved. -/
def dropout3 (env : Engine) (p : ℚ) (x : T3) : T3 :=
  ⟨x.d0, x.d1, x.d2, dropoutFn3 env p x.val⟩

/-- Modelled from the spec: layers.layer_norm is not under src; section 4.1 and 4.4
say it normalizes to zero mean and unit variance per feature with a learned
scale/shift; the reciprocal square root of the variance is an engine primitive.
Rank-2 version, normalizing each row over its channels. -/
def layer_norm2 (env : Engine) (g b : Nat → ℚ) (x : Mat) : Mat :=
  ⟨x.rows, x.cols, fun i j =>
    let mu := (∑ k in Finset.range x.cols, x.val i k) / (x.cols : ℚ)
    let va := (∑ k in Finset.range x.cols, (x.val i k - mu) ^ 2) / (x.cols : ℚ)
    g j * ((x.val i j - mu) * env.rsqrt va) + b j⟩

/-- Modelled from the spec: layer norm on a rank-3 tensor, normalizing each
[batch, position] row over its channels. -/
def layer_norm3 (env : Engine) (g b : Nat → ℚ) (x : T3) : T3 :=
  ⟨x.d0, x.d1, x.d2, fun bi si j =>
    let mu := (∑ k in Finset.range x.d2, x.val bi si k) / (x.d2 : ℚ)
    let va := (∑ k in Finset.range x.d2, (x.val bi si k - mu) ^ 2) / (x.d2 : ℚ)
    g j * ((x.val bi si j - mu) * env.rsqrt va) + b j⟩

/-- Modelled from the spec: layers.layer_norm_and_dropout is not under src; section
4.1 says normalize then apply dropout. -/
def layer_norm_and_dropout (env : Engine) (g b : Nat → ℚ) (p : ℚ) (x : T3) : T3 :=
  dropout3 env p (layer_norm3 env g b x)

/-- Modelled from the spec: F.gelu is not under src; section 4.4 says the exact
erf-based GELU, taking erf and 1/sqrt 2 from the engine. -/
def F.gelu (env : Engine) (z : ℚ) : ℚ :=
  z * (1 + env.erf (z * env.invSqrt 2)) / 2

/-- Modelled from the spec: softmax over the destination axis with max subtraction
(section 4.3 numerical requirement); positions whose mask flag is 0 receive exactly
zero weight post-normalization, and only unmasked positions feed the normalizer. -/
def maskedSoftmax (env : Engine) (n : Nat) (mask s : Nat → ℚ) : Nat → ℚ :=
  let m := ((List.range n).map s).foldr max 0
  let e : Nat → ℚ := fun j => if mask j = 0 then 0 else env.exp (s j - m)
  let z := ∑ j in Finset.range n, e j
  fun j => e j / z

/-- Modelled from the spec: layers.attention is not under src; section 4.3 gives the
algorithm. The rank-2 src and dest (shape [bs*len, C]) are projected by weight
functions into n_heads query/key/value subspaces of width c each; per batch element
and head, pairwise scores scaled by 1/sqrt c are masked-softmax normalized over the
destination axis (entry (b,i,j) of the rank-3 mask gates destination j); attention
probabilities pass through dropout; the probability-weighted value sums of all heads
are concatenated, returned 2-d as [bs*src_len, n_heads*c]. -/
def attention (env : Engine) (wq wk wv : Nat → Nat → ℚ) (src dest : Mat)
    (mask : T3) (n_heads c : Nat) (dropout_prob : ℚ)
    (bs src_len dest_len : Nat) : Mat :=
  let q := matmulF src wq (n_heads * c)
  let k := matmulF dest wk (n_heads * c)
  let v := matmulF dest wv (n_heads * c)
  let score : Nat → Nat → Nat → Nat → ℚ := fun b h i j =>
    env.invSqrt c *
      ∑ t in Finset.range c,
        q.val (b * src_len + i) (h * c + t) * k.val (b * dest_len + j) (h * c + t)
  let probs : Nat → Nat → Nat → Nat → ℚ := fun b h i j =>
    maskedSoftmax env dest_len (fun jj => mask.val b i jj) (score b h i) j
  let probsDropped : Nat → Nat → Nat → Nat → ℚ := fun b h =>
    dropoutFn env dropout_prob (probs b h)
  ⟨bs * src_len, n_heads * c, fun r col =>
    ∑ j in Finset.range dest_len,
      probsDropped (r / src_len) (col / c) (r % src_len) j *
        v.val ((r / src_len) * dest_len + j) ((col / c) * c + col % c)⟩

/-- Per-layer learned weights of one transformer layer: the q/k/v projections of the
self-attention block, the attention output projection, the intermediate and output
feed-forward projections, and the two layer-norm scale/shift pairs. -/
structure LayerWeights where
  wq : Nat → Nat → ℚ
  wk : Nat → Nat → ℚ
  wv : Nat → Nat → ℚ
  attn_out_w : Nat → Nat → ℚ
  attn_out_b : Nat → ℚ
  ln1_g : Nat → ℚ
  ln1_b : Nat → ℚ
  inter_w : Nat → Nat → ℚ
  inter_b : Nat → ℚ
  out_w : Nat → Nat → ℚ
  out_b : Nat → ℚ
  ln2_g : Nat → ℚ
  ln2_b : Nat → ℚ

/-- One iteration of the layer loop in transformer (src/nlp/models.py lines 22-46):
self-attention on the 2-d hidden state, dense projection back to width c, dropout,
residual add and layer norm; then the intermediate dense with the feed-forward
activation, the output dense, dropout, residual add and layer norm. -/
def transformerStep (env : Engine) (lw : LayerWeights) (attn_mask : T3)
    (c n_heads ff_c : Nat) (ff_act : ℚ → ℚ) (bs seq_len : Nat)
    (hidden_dropout_prob attn_dropout_prob : ℚ) (x_2d : Mat) : Mat :=
  let attn_c := c / n_heads
  let attn_h0 := attention env lw.wq lw.wk lw.wv x_2d x_2d attn_mask n_heads attn_c
    attn_dropout_prob bs seq_len seq_len
  let attn_h1 := dense attn_h0 c lw.attn_out_w lw.attn_out_b (fun q => q)
  let attn_h2 := dropout2 env hidden_dropout_prob attn_h1
  let attn_h := layer_norm2 env lw.ln1_g lw.ln1_b (matAdd attn_h2 x_2d)
  let ff_h := dense attn_h ff_c lw.inter_w lw.inter_b ff_act
  let h0 := dense ff_h c lw.out_w lw.out_b (fun q => q)
  let h1 := dropout2 env hidden_dropout_prob h0
  layer_norm2 env lw.ln2_g lw.ln2_b (matAdd h1 attn_h)

/-- The 2-d hidden state after the first n layers of the loop (x_2d is rebound to
each layer output as in the source loop). -/
def transformerPasses (env : Engine) (W : Nat → LayerWeights) (attn_mask : T3)
    (c n_heads ff_c : Nat) (ff_act : ℚ → ℚ) (bs seq_len : Nat)
    (hp ap : ℚ) (x0 : Mat) : Nat → Mat
  | 0 => x0
  | n + 1 => transformerStep env (W n) attn_mask c n_heads ff_c ff_act bs seq_len hp ap
      (transformerPasses env W attn_mask c n_heads ff_c ff_act bs seq_len hp ap x0 n)

/-- all_layer_outputs after the first n iterations of the loop, in layer order. -/
def transformerOutputs (env : Engine) (W : Nat → LayerWeights) (attn_mask : T3)
    (c n_heads ff_c : Nat) (ff_act : ℚ → ℚ) (bs seq_len : Nat)
    (hp ap : ℚ) (x0 : Mat) : Nat → List Mat
  | 0 => []
  | n + 1 => transformerOutputs env W attn_mask c n_heads ff_c ff_act bs seq_len hp ap x0 n
      ++ [transformerPasses env W attn_mask c n_heads ff_c ff_act bs seq_len hp ap x0 (n + 1)]

/-- transformer (src/nlp/models.py lines 11-49) with return_all_layers=True: every
layer output, each reshaped back to the input shape list. -/
def transformer_all (env : Engine) (W : Nat → LayerWeights) (x : T3) (attn_mask : T3)
    (c num_hidden_layers n_heads ff_c : Nat) (ff_act : ℚ → ℚ)
    (hp ap : ℚ) : List T3 :=
  let x_2d := reshape_to_matrix x
  (transformerOutputs env W attn_mask c n_heads ff_c ff_act x.d0 x.d1 hp ap x_2d
      num_hidden_layers).map (reshape_from_matrix x.d0 x.d1 x.d2)

/-- transformer with return_all_layers=False: only the final x_2d, reshaped back. -/
def transformer_last (env : Engine) (W : Nat → LayerWeights) (x : T3) (attn_mask : T3)
    (c num_hidden_layers n_heads ff_c : Nat) (ff_act : ℚ → ℚ)
    (hp ap : ℚ) : T3 :=
  let x_2d := reshape_to_matrix x
  reshape_from_matrix x.d0 x.d1 x.d2
    (transformerPasses env W attn_mask c n_heads ff_c ff_act x.d0 x.d1 hp ap x_2d
      num_hidden_layers)

/-- transformer (src/nlp/models.py lines 11-49): the encoder loop, returning either
the list of all per-layer outputs or only the last one. -/
def transformer (env : Engine) (W : Nat → LayerWeights) (x : T3) (attn_mask : T3)
    (c num_hidden_layers n_heads ff_c : Nat) (ff_act : ℚ → ℚ)
    (hp ap : ℚ) (return_all_layers : Bool) : Sum (List T3) T3 :=
  if return_all_layers then
    .inl (transformer_all env W x attn_mask c num_hidden_layers n_heads ff_c ff_act hp ap)
  else
    .inr (transformer_last env W x attn_mask c num_hidden_layers n_heads ff_c ff_act hp ap)

/-- word_emb (src/nlp/models.py lines 52-64): the 2-d id batch is expanded to
[bs, seq, 1], flattened, gathered from the embedding table, and reshaped to
[bs, seq, 1*c]; the function returns the embedded tensor and the table. -/
def word_emb (table : Nat → Nat → ℚ) (x : T2N) (c : Nat) :
    T3 × (Nat → Nat → ℚ) :=
  let x_flat : Nat → Nat := fun i => x.val (i / x.d1) (i % x.d1)
  let g := gather table x_flat (x.d0 * x.d1) c
  (⟨x.d0, x.d1, 1 * c, fun bi si j => g.val (bi * x.d1 + si) j⟩, table)

/-- token_type_pos_emb (src/nlp/models.py lines 67-83): add the segment-type
embedding (one-hot ids times the segment table, reshaped to [bs, seq_len, c]), add
the first seq_len rows of the position table (tf.slice, failing when seq_len exceeds
max_seq_len), then layer norm and dropout. -/
def token_type_pos_emb (env : Engine) (token_type_table pos_table : Nat → Nat → ℚ)
    (g b : Nat → ℚ) (x : T3) (token_type_ids : T2N)
    (token_type_vocab_size max_seq_len : Nat) (dropout_prob : ℚ) :
    Except TfError T3 :=
  let bs := x.d0
  let seq_len := x.d1
  let c := x.d2
  let flat_ids : Nat → Nat := fun i =>
    token_type_ids.val (i / token_type_ids.d1) (i % token_type_ids.d1)
  let one_hot_ids := one_hot flat_ids (bs * seq_len) token_type_vocab_size
  let tt2 := matmulF one_hot_ids token_type_table c
  let token_type_emb : T3 := ⟨bs, seq_len, c, fun bi si j => tt2.val (bi * seq_len + si) j⟩
  let x1 := t3Add x token_type_emb
  match tfSliceRows ⟨max_seq_len, c, pos_table⟩ seq_len with
  | .error e => .error e
  | .ok pos_emb => .ok (layer_norm_and_dropout env g b dropout_prob (t3AddMat x1 pos_emb))

/-- create_attention_mask (src/nlp/models.py lines 88-94): only the shape of src is
used (bs, src_len); dest_mask is reshaped to [bs, 1, dest_len], cast to float, and
multiplied by a [bs, src_len, 1] tensor of ones. -/
def create_attention_mask (bs src_len : Nat) (dest_mask : T2N) : T3 :=
  let dest_len := dest_mask.d1
  let dmaskFlat : Nat → ℚ := fun i =>
    (dest_mask.val (i / dest_mask.d1) (i % dest_mask.d1) : ℚ)
  let dmask3 : Nat → Nat → Nat → ℚ := fun bi ki j => dmaskFlat ((bi * 1 + ki) * dest_len + j)
  ⟨bs, src_len, dest_len, fun bi si j => 1 * dmask3 bi 0 j⟩

/-- BertConfig (src/nlp/models.py lines 97-110): a plain record of hyperparameters;
the constructor stores every argument unchecked. -/
structure BertConfig where
  vocab_size : Nat
  hidden_size : Nat := 768
  num_hidden_layers : Nat := 12
  num_attention_heads : Nat := 12
  intermediate_size : Nat := 3072
  hidden_dropout_prob : ℚ := 1 / 10
  attention_probs_dropout_prob : ℚ := 1 / 10
  max_position_embeddings : Nat := 512
  type_vocab_size : Nat := 16
  initializer_range : ℚ := 1 / 50

/-- copy.deepcopy on a BertConfig: a fresh object with every field copied. -/
def deepcopy (c : BertConfig) : BertConfig :=
  { vocab_size := c.vocab_size, hidden_size := c.hidden_size,
    num_hidden_layers := c.num_hidden_layers,
    num_attention_heads := c.num_attention_heads,
    intermediate_size := c.intermediate_size,
    hidden_dropout_prob := c.hidden_dropout_prob,
    attention_probs_dropout_prob := c.attention_probs_dropout_prob,
    max_position_embeddings := c.max_position_embeddings,
    type_vocab_size := c.type_vocab_size,
    initializer_range := c.initializer_range }

/-- The config object BertModel.init works on (src/nlp/models.py lines 116-119):
when not training, both dropout probabilities are set to 0. -/
def bertEffectiveConfig (config : BertConfig) (is_training : Bool) : BertConfig :=
  if is_training then config
  else { config with hidden_dropout_prob := 0, attention_probs_dropout_prob := 0 }

/-- The caller-visible effect of BertModel construction on the config object:
because the constructor deep-copies the config before mutating it (line 114), the
caller keeps the original object while the model uses the adjusted copy. The first
component is the caller's object after construction, the second the internal copy. -/
def bertConfigAfterInit (config : BertConfig) (is_training : Bool) :
    BertConfig × BertConfig :=
  (config, bertEffectiveConfig (deepcopy config) is_training)

/-- All learned weights of the model, indexed per layer for the encoder stack. -/
structure BertWeights where
  word_table : Nat → Nat → ℚ
  token_type_table : Nat → Nat → ℚ
  pos_table : Nat → Nat → ℚ
  emb_ln_g : Nat → ℚ
  emb_ln_b : Nat → ℚ
  layer : Nat → LayerWeights
  pooler_w : Nat → Nat → ℚ
  pooler_b : Nat → ℚ

/-- tf.ones([b, s], int32). -/
def onesT2N (b s : Nat) : T2N := ⟨b, s, fun _ _ => 1⟩

/-- tf.zeros([b, s], int32). -/
def zerosT2N (b s : Nat) : T2N := ⟨b, s, fun _ _ => 0⟩

/-- The attributes a constructed BertModel carries. -/
structure BertModel where
  embedding_output : T3
  all_encoder_layers : List T3
  sequence_output : T3
  pooled_output : Mat

/-- The pooler (src/nlp/models.py lines 155-159) as written: sequence_output[:, 0, :]
drops the sequence axis (integer index), yielding [batch, hidden]; tf.squeeze on
axis 1 then demands that dimension be 1; a surviving rank-1 tensor is rejected by
tf.layers.dense, which needs rank at least 2. -/
def pooler (sequence_output : T3) (hidden_size : Nat) : Except TfError Mat :=
  let sliced : Mat := ⟨sequence_output.d0, sequence_output.d2,
    fun bi j => sequence_output.val bi 0 j⟩
  match tfSqueezeAxis1 sliced with
  | .error e => .error e
  | .ok first_token => denseRank1 first_token hidden_size

/-- BertModel.__init__ (src/nlp/models.py lines 113-153) up to sequence_output:
deep-copy and adjust the config, default the mask to ones and the segment ids to
zeros, embed words, add segment and position embeddings, build the attention mask,
run the transformer with return_all_layers=True, and take the last layer output. -/
def bertEncoderPipeline (env : Engine) (W : BertWeights) (config : BertConfig)
    (is_training : Bool) (input_ids : T2N) (input_mask token_type_ids : Option T2N) :
    Except TfError (T3 × List T3 × T3) :=
  let config := bertEffectiveConfig (deepcopy config) is_training
  let batch_size := input_ids.d0
  let seq_length := input_ids.d1
  let input_mask := input_mask.getD (onesT2N batch_size seq_length)
  let token_type_ids := token_type_ids.getD (zerosT2N batch_size seq_length)
  let we := word_emb W.word_table input_ids config.hidden_size
  match token_type_pos_emb env W.token_type_table W.pos_table W.emb_ln_g W.emb_ln_b
      we.1 token_type_ids config.type_vocab_size config.max_position_embeddings
      config.hidden_dropout_prob with
  | .error e => .error e
  | .ok embedding_output =>
    let attn_mask := create_attention_mask batch_size seq_length input_mask
    let all_encoder_layers := transformer_all env W.layer embedding_output attn_mask
      config.hidden_size config.num_hidden_layers config.num_attention_heads
      config.intermediate_size (F.gelu env) config.hidden_dropout_prob
      config.attention_probs_dropout_prob
    match all_encoder_layers.getLast? with
    | none => .error .indexError
    | some sequence_output => .ok (embedding_output, all_encoder_layers, sequence_output)

/-- BertModel.__init__ (src/nlp/models.py lines 113-159): the encoder pipeline
followed by the pooler. -/
def BertModel.init (env : Engine) (W : BertWeights) (config : BertConfig)
    (is_training : Bool) (input_ids : T2N) (input_mask token_type_ids : Option T2N) :
    Except TfError BertModel :=
  match bertEncoderPipeline env W config is_training input_ids input_mask token_type_ids with
  | .error e => .error e
  | .ok (eo, layers_out, so) =>
    match pooler so (bertEffectiveConfig (deepcopy config) is_training).hidden_size with
    | .error e => .error e
    | .ok po => .ok ⟨eo, layers_out, so, po⟩

/-- A concrete engine with simple primitives, for concrete evaluations. -/
def engineHat : Engine :=
  { exp := fun q => q, erf := fun q => q, rsqrt := fun q => q,
    invSqrt := fun _ => 1, noise2 := fun _ f => f, noise3 := fun _ f => f }

/-- Concrete per-layer weights, for concrete evaluations. -/
def layerWeightsHat : LayerWeights :=
  { wq := fun _ _ => 0, wk := fun _ _ => 0, wv := fun _ _ => 0,
    attn_out_w := fun _ _ => 0, attn_out_b := fun _ => 0,
    ln1_g := fun _ => 1, ln1_b := fun _ => 0,
    inter_w := fun _ _ => 0, inter_b := fun _ => 0,
    out_w := fun _ _ => 0, out_b := fun _ => 0,
    ln2_g := fun _ => 1, ln2_b := fun _ => 0 }

/-- Concrete model weights, for concrete evaluations. -/
def weightsHat : BertWeights :=
  { word_table := fun _ _ => 0, token_type_table := fun _ _ => 0,
    pos_table := fun _ _ => 0, emb_ln_g := fun _ => 1, emb_ln_b := fun _ => 0,
    layer := fun _ => layerWeightsHat, pooler_w := fun _ _ => 0,
    pooler_b := fun _ => 0 }

/-- Recovering the row index from a flattened [rows, cols] offset. -/
theorem flatIndexDiv (b s d : Nat) (h : s < d) : (b * d + s) / d = b := by
  rw [Nat.add_comm, Nat.add_mul_div_right _ _ (Nat.lt_of_le_of_lt (Nat.zero_le s) h)]
  simp [Nat.div_eq_of_lt h]

/-- Recovering the column index from a flattened [rows, cols] offset. -/
theorem flatIndexMod (b s d : Nat) (h : s < d) : (b * d + s) % d = s := by
  rw [Nat.mul_comm, Nat.mul_add_mod, Nat.mod_eq_of_lt h]

/-- C1: for every bs, src_len and 0/1 validity mask of shape [bs, dest_len],
create_attention_mask returns a [bs, src_len, dest_len] tensor whose entry
(b, i, j) equals the validity flag of destination position j in batch element b,
cast to float, for every source position i. -/
theorem c1_create_attention_mask (bs src_len : Nat) (dest_mask : T2N)
    (hvals : ∀ b j, dest_mask.val b j = 0 ∨ dest_mask.val b j = 1)
    (b i j : Nat) (hj : j < dest_mask.d1) :
    (create_attention_mask bs src_len dest_mask).d0 = bs ∧
    (create_attention_mask bs src_len dest_mask).d1 = src_len ∧
    (create_attention_mask bs src_len dest_mask).d2 = dest_mask.d1 ∧
    (create_attention_mask bs src_len dest_mask).val b i j =
      (dest_mask.val b j : ℚ) := by
  refine ⟨rfl, rfl, rfl, ?_⟩
  show (1 : ℚ) * ((dest_mask.val (((b * 1 + 0) * dest_mask.d1 + j) / dest_mask.d1)
      (((b * 1 + 0) * dest_mask.d1 + j) % dest_mask.d1) : Nat) : ℚ) =
    (dest_mask.val b j : ℚ)
  rw [Nat.mul_one, Nat.add_zero, flatIndexDiv b j _ hj, flatIndexMod b j _ hj, one_mul]

/-- C1 witness: at bs=1, src_len=dest_len=4 and the all-ones mask, the entry at
(0, 2, 3) is the flag at destination 3, which is 1. -/
theorem c1_create_attention_mask_witness :
    (3 < (onesT2N 1 4).d1 ∧
      (∀ b j, (onesT2N 1 4).val b j = 0 ∨ (onesT2N 1 4).val b j = 1)) ∧
    (create_attention_mask 1 4 (onesT2N 1 4)).val 0 2 3 =
      ((onesT2N 1 4).val 0 3 : ℚ) ∧
    ((onesT2N 1 4).val 0 3 : ℚ) = 1 :=
  ⟨⟨by decide, fun _ _ => Or.inr rfl⟩,
    (c1_create_attention_mask 1 4 (onesT2N 1 4) (fun _ _ => Or.inr rfl) 0 2 3
      (by decide)).2.2.2,
    by norm_num [onesT2N]⟩

/-- C6: an omitted validity mask defaults to the all-ones [batch, seq_len] tensor and
omitted segment-type ids default to the all-zero [batch, seq_len] tensor; both the
construction and the encoder pipeline equal the runs with those tensors explicit. -/
theorem c6_default_inputs (env : Engine) (W : BertWeights) (config : BertConfig)
    (t : Bool) (ids : T2N) :
    BertModel.init env W config t ids none none =
      BertModel.init env W config t ids (some (onesT2N ids.d0 ids.d1))
        (some (zerosT2N ids.d0 ids.d1)) ∧
    bertEncoderPipeline env W config t ids none none =
      bertEncoderPipeline env W config t ids (some (onesT2N ids.d0 ids.d1))
        (some (zerosT2N ids.d0 ids.d1)) :=
  ⟨rfl, rfl⟩

/-- C8: two positions holding the identical token id receive the identical row of the
embedding table from the token-embedding lookup. -/
theorem c8_word_emb_identical_ids (table : Nat → Nat → ℚ) (x : T2N) (c : Nat)
    (b1 s1 b2 s2 : Nat) (h1 : s1 < x.d1) (h2 : s2 < x.d1)
    (hid : x.val b1 s1 = x.val b2 s2) (j : Nat) :
    (word_emb table x c).1.val b1 s1 j = (word_emb table x c).1.val b2 s2 j := by
  show table (x.val ((b1 * x.d1 + s1) / x.d1) ((b1 * x.d1 + s1) % x.d1)) j =
    table (x.val ((b2 * x.d1 + s2) / x.d1) ((b2 * x.d1 + s2) % x.d1)) j
  rw [flatIndexDiv _ _ _ h1, flatIndexMod _ _ _ h1, flatIndexDiv _ _ _ h2,
    flatIndexMod _ _ _ h2, hid]

/-- A concrete id batch with the same token id at two positions. -/
def idsC8 : T2N := ⟨1, 2, fun _ _ => 5⟩

/-- C8 witness: positions (0,0) and (0,1) hold id 5 and receive the same row. -/
theorem c8_word_emb_identical_ids_witness :
    (0 < idsC8.d1 ∧ 1 < idsC8.d1) ∧
    (word_emb (fun i j => (i : ℚ) + j) idsC8 3).1.val 0 0 2 =
      (word_emb (fun i j => (i : ℚ) + j) idsC8 3).1.val 0 1 2 :=
  ⟨⟨by decide, by decide⟩,
    c8_word_emb_identical_ids (fun i j => (i : ℚ) + j) idsC8 3 0 0 0 1
      (by decide) (by decide) rfl 2⟩

/-- C10: construction operates on a deep copy of the config: the caller's object is
unchanged for both values of is_training (its dropout fields keep their original
values), the copy equals the original as a value, and for is_training=false the
internal copy has both dropout probabilities zeroed. -/
theorem c10_config_unchanged (config : BertConfig) (t : Bool) :
    (bertConfigAfterInit config t).1 = config ∧
    deepcopy config = config ∧
    (bertConfigAfterInit config false).2.hidden_dropout_prob = 0 ∧
    (bertConfigAfterInit config false).2.attention_probs_dropout_prob = 0 ∧
    (bertConfigAfterInit config t).1.hidden_dropout_prob =
      config.hidden_dropout_prob ∧
    (bertConfigAfterInit config t).1.attention_probs_dropout_prob =
      config.attention_probs_dropout_prob :=
  ⟨rfl, rfl, rfl, rfl, rfl, rfl⟩

/-- The C2 scenario config: hidden_size 10 is not divisible by 3 attention heads. -/
def cfg103 : BertConfig :=
  { vocab_size := 5, hidden_size := 10, num_hidden_layers := 1,
    num_attention_heads := 3, intermediate_size := 4,
    hidden_dropout_prob := 1 / 10, attention_probs_dropout_prob := 1 / 10,
    max_position_embeddings := 4, type_vocab_size := 2,
    initializer_range := 1 / 50 }

/-- A concrete [1, 2] id batch for the C2 scenario. -/
def idsC2 : T2N := ⟨1, 2, fun _ _ => 1⟩

/-- C2 counterexample: at hidden_size=10, num_attention_heads=3 the construction does
not raise a ConfigError; the config and the encoder are built unvalidated, and the
only failure is the pooler's ShapeError, which is not a ConfigError. -/
theorem c2_counterexample_no_config_error :
    BertModel.init engineHat weightsHat cfg103 false idsC2 none none =
      Except.error TfError.shapeError ∧
    Except.error TfError.shapeError ≠
      (Except.error TfError.configError : Except TfError BertModel) := by
  refine ⟨rfl, fun h => ?_⟩
  injection h with h2
  exact TfError.noConfusion h2

/-- Helper: token_type_pos_emb can only fail with a ShapeError (from tf.slice). -/
theorem token_type_pos_emb_error_shape (env : Engine)
    (tt pt : Nat → Nat → ℚ) (g b : Nat → ℚ) (x : T3) (ids : T2N)
    (tvs msl : Nat) (p : ℚ) (e : TfError)
    (h : token_type_pos_emb env tt pt g b x ids tvs msl p = Except.error e) :
    e = TfError.shapeError := by
  simp only [token_type_pos_emb, tfSliceRows] at h
  split at h
  · rename_i e2 heq
    injection h with h2
    subst h2
    split at heq
    · exact Except.noConfusion heq
    · injection heq with h3
      exact h3.symm
  · exact Except.noConfusion h

/-- Helper: the pooler can only fail with a ShapeError (squeeze or dense rank). -/
theorem pooler_error_shape (so : T3) (hs : Nat) (e : TfError)
    (h : pooler so hs = Except.error e) : e = TfError.shapeError := by
  simp only [pooler, tfSqueezeAxis1, denseRank1] at h
  split at h
  · rename_i e2 heq
    injection h with h2
    subst h2
    split at heq
    · exact Except.noConfusion heq
    · injection heq with h3
      exact h3.symm
  · injection h with h2
    exact h2.symm

/-- Helper: the encoder pipeline can only fail with a ShapeError or an IndexError. -/
theorem bertEncoderPipeline_error (env : Engine) (W : BertWeights)
    (config : BertConfig) (t : Bool) (ids : T2N) (im tti : Option T2N)
    (e : TfError)
    (h : bertEncoderPipeline env W config t ids im tti = Except.error e) :
    e = TfError.shapeError ∨ e = TfError.indexError := by
  simp only [bertEncoderPipeline] at h
  split at h
  · rename_i e2 heq
    injection h with h2
    subst h2
    exact Or.inl (token_type_pos_emb_error_shape _ _ _ _ _ _ _ _ _ _ _ heq)
  · rename_i eo heq
    split at h
    · injection h with h2
      exact Or.inr h2.symm
    · exact Except.noConfusion h

/-- C2 amended: construction performs no divisibility validation and never raises a
ConfigError; every construction failure is a ShapeError or an IndexError (the head
width is taken by floor division hidden_size / num_attention_heads instead). -/
theorem c2_no_divisibility_check (env : Engine) (W : BertWeights)
    (config : BertConfig) (t : Bool) (ids : T2N) (im tti : Option T2N)
    (e : TfError)
    (h : BertModel.init env W config t ids im tti = Except.error e) :
    e = TfError.shapeError ∨ e = TfError.indexError := by
  simp only [BertModel.init] at h
  split at h
  · rename_i e2 heq
    injection h with h2
    subst h2
    exact bertEncoderPipeline_error _ _ _ _ _ _ _ _ heq
  · rename_i eo layers_out so heq
    split at h
    · rename_i e2 heq2
      injection h with h2
      subst h2
      exact Or.inl (pooler_error_shape _ _ _ heq2)
    · exact Except.noConfusion h

/-- C2 witness: the amended theorem applied at the concrete scenario config, whose
construction fails with a ShapeError. -/
theorem c2_no_divisibility_check_witness :
    BertModel.init engineHat weightsHat cfg103 false idsC2 none none =
      Except.error TfError.shapeError ∧
    (TfError.shapeError = TfError.shapeError ∨
      TfError.shapeError = TfError.indexError) :=
  ⟨rfl, c2_no_divisibility_check engineHat weightsHat cfg103 false idsC2 none none
    TfError.shapeError rfl⟩

/-- The spec scenario config for C3: hidden_size 8, 2 heads. -/
def cfgC3 : BertConfig :=
  { vocab_size := 6, hidden_size := 8, num_hidden_layers := 1,
    num_attention_heads := 2, intermediate_size := 4,
    hidden_dropout_prob := 1 / 10, attention_probs_dropout_prob := 1 / 10,
    max_position_embeddings := 8, type_vocab_size := 2,
    initializer_range := 1 / 50 }

/-- A concrete [1, 4] id batch for the C3 scenario. -/
def idsC3 : T2N := ⟨1, 4, fun _ _ => 1⟩

/-- C3 (code bug): at the spec scenario (batch 1, seq_len 4, hidden 8, 2 heads) the
encoder pipeline succeeds but construction fails with a ShapeError instead of
producing pooled_output: sequence_output[:, 0, :] already drops the sequence axis,
so tf.squeeze(axis=1) is applied to a [batch, hidden] tensor with hidden = 8; the
pooler alone rejects any [1, 4, 8] sequence output the same way. -/
theorem c3_pooler_shape_bug :
    BertModel.init engineHat weightsHat cfgC3 false idsC3 none none =
      Except.error TfError.shapeError ∧
    (bertEncoderPipeline engineHat weightsHat cfgC3 false idsC3 none none).isOk =
      true ∧
    pooler ⟨1, 4, 8, fun _ _ _ => 0⟩ 8 = Except.error TfError.shapeError :=
  ⟨rfl, rfl, rfl⟩

/-- C5: when seq_len ≤ max_position_embeddings the position-embedding step succeeds
and the tensor handed to layer norm is exactly the segment-embedded input plus, at
every (batch, position si, channel j), entry (si, j) of the learned position table:
the slice ⟨x.d1, x.d2, pt⟩ holds exactly the first seq_len rows of the table and
t3AddMat adds them elementwise, broadcast over the batch. When
seq_len > max_position_embeddings the step fails with a ShapeError. -/
theorem c5_position_embedding (env : Engine) (tt pt : Nat → Nat → ℚ)
    (g b : Nat → ℚ) (x : T3) (ids : T2N) (tvs msl : Nat) (p : ℚ) :
    (x.d1 ≤ msl →
      token_type_pos_emb env tt pt g b x ids tvs msl p =
        Except.ok (layer_norm_and_dropout env g b p
          (t3AddMat (t3Add x ⟨x.d0, x.d1, x.d2, fun bi si j =>
              (matmulF (one_hot (fun i => ids.val (i / ids.d1) (i % ids.d1))
                (x.d0 * x.d1) tvs) tt x.d2).val (bi * x.d1 + si) j⟩)
            ⟨x.d1, x.d2, pt⟩)) ∧
      ∀ bi si j,
        (t3AddMat (t3Add x ⟨x.d0, x.d1, x.d2, fun bi2 si2 j2 =>
            (matmulF (one_hot (fun i => ids.val (i / ids.d1) (i % ids.d1))
              (x.d0 * x.d1) tvs) tt x.d2).val (bi2 * x.d1 + si2) j2⟩)
          ⟨x.d1, x.d2, pt⟩).val bi si j =
        (t3Add x ⟨x.d0, x.d1, x.d2, fun bi2 si2 j2 =>
            (matmulF (one_hot (fun i => ids.val (i / ids.d1) (i % ids.d1))
              (x.d0 * x.d1) tvs) tt x.d2).val (bi2 * x.d1 + si2) j2⟩).val bi si j
          + pt si j) ∧
    (msl < x.d1 →
      token_type_pos_emb env tt pt g b x ids tvs msl p =
        Except.error TfError.shapeError) := by
  constructor
  · intro hle
    constructor
    · simp only [token_type_pos_emb, tfSliceRows, if_pos hle]
    · intro bi si j
      rfl
  · intro hlt
    simp only [token_type_pos_emb, tfSliceRows, if_neg (Nat.not_le_of_lt hlt)]

/-- A concrete [1, 2, 3] embedded batch for the C5 witness. -/
def xC5 : T3 := ⟨1, 2, 3, fun _ _ _ => 0⟩

/-- A concrete [1, 2] segment-id batch for the C5 witness. -/
def idsC5 : T2N := ⟨1, 2, fun _ _ => 0⟩

/-- C5 witness: seq_len 2 against max 4 succeeds with exactly the sliced table rows
added; against max 1 it fails with a ShapeError. -/
theorem c5_position_embedding_witness :
    (xC5.d1 ≤ 4 ∧
      token_type_pos_emb engineHat (fun _ _ => 0) (fun _ _ => 0) (fun _ => 1)
          (fun _ => 0) xC5 idsC5 2 4 0 =
        Except.ok (layer_norm_and_dropout engineHat (fun _ => 1) (fun _ => 0) 0
          (t3AddMat (t3Add xC5 ⟨xC5.d0, xC5.d1, xC5.d2, fun bi si j =>
              (matmulF (one_hot (fun i => idsC5.val (i / idsC5.d1) (i % idsC5.d1))
                (xC5.d0 * xC5.d1) 2) (fun _ _ => 0) xC5.d2).val
                (bi * xC5.d1 + si) j⟩)
            ⟨xC5.d1, xC5.d2, fun _ _ => 0⟩))) ∧
    (1 < xC5.d1 ∧
      token_type_pos_emb engineHat (fun _ _ => 0) (fun _ _ => 0) (fun _ => 1)
          (fun _ => 0) xC5 idsC5 2 1 0 =
        Except.error TfError.shapeError) :=
  ⟨⟨by decide, ((c5_position_embedding engineHat (fun _ _ => 0) (fun _ _ => 0)
      (fun _ => 1) (fun _ => 0) xC5 idsC5 2 4 0).1 (by decide)).1⟩,
    ⟨by decide, (c5_position_embedding engineHat (fun _ _ => 0) (fun _ _ => 0)
      (fun _ => 1) (fun _ => 0) xC5 idsC5 2 1 0).2 (by decide)⟩⟩

/-- The loop produces one output per layer. -/
theorem transformerOutputs_length (env : Engine) (W : Nat → LayerWeights)
    (attn_mask : T3) (c n_heads ff_c : Nat) (ff_act : ℚ → ℚ) (bs seq_len : Nat)
    (hp ap : ℚ) (x0 : Mat) (n : Nat) :
    (transformerOutputs env W attn_mask c n_heads ff_c ff_act bs seq_len hp ap
      x0 n).length = n := by
  induction n with
  | zero => rfl
  | succ n ih => simp [transformerOutputs, ih]

/-- The last element of a list ending in a singleton. -/
theorem appendSingletonGetLastD {α : Type} (l : List α) (a d : α) :
    (l ++ [a]).getLastD d = a := by
  simp [List.getLast?_concat]

/-- C7: the transformer run with return_all_layers=True returns the list of exactly
num_hidden_layers per-layer outputs; run with return_all_layers=False, all else
equal, it returns a single tensor equal to the last element of that list whenever
there is at least one layer. -/
theorem c7_return_all_layers (env : Engine) (W : Nat → LayerWeights) (x : T3)
    (mask : T3) (c num n_heads ff_c : Nat) (ff_act : ℚ → ℚ) (hp ap : ℚ) :
    transformer env W x mask c num n_heads ff_c ff_act hp ap true =
      Sum.inl (transformer_all env W x mask c num n_heads ff_c ff_act hp ap) ∧
    (transformer_all env W x mask c num n_heads ff_c ff_act hp ap).length = num ∧
    (0 < num →
      transformer env W x mask c num n_heads ff_c ff_act hp ap false =
        Sum.inr ((transformer_all env W x mask c num n_heads ff_c ff_act hp ap).getLastD
          t3default)) := by
  refine ⟨rfl, ?_, ?_⟩
  · simp [transformer_all, transformerOutputs_length]
  · intro hnum
    obtain ⟨m, rfl⟩ : ∃ m, num = m + 1 := ⟨num - 1, by omega⟩
    show Sum.inr (transformer_last env W x mask c (m + 1) n_heads ff_c ff_act hp ap) = _
    simp only [transformer_all, transformer_last, transformerOutputs, List.map_append,
      List.map_cons, List.map_nil, appendSingletonGetLastD]

/-- A concrete [1, 1, 2] input for the C7 witness. -/
def xC7 : T3 := ⟨1, 1, 2, fun _ _ _ => 1⟩

/-- C7 witness: with one layer, the False run returns the last element of the True
run's singleton output list. -/
theorem c7_return_all_layers_witness :
    (0 : Nat) < 1 ∧
    transformer engineHat (fun _ => layerWeightsHat) xC7 (create_attention_mask 1 1
        (onesT2N 1 1)) 2 1 1 2 (F.gelu engineHat) 0 0 false =
      Sum.inr ((transformer_all engineHat (fun _ => layerWeightsHat) xC7
        (create_attention_mask 1 1 (onesT2N 1 1)) 2 1 1 2 (F.gelu engineHat) 0
        0).getLastD t3default) :=
  ⟨by decide, (c7_return_all_layers engineHat (fun _ => layerWeightsHat) xC7
    (create_attention_mask 1 1 (onesT2N 1 1)) 2 1 1 2 (F.gelu engineHat) 0
    0).2.2 (by decide)⟩

/-- Swapping the engine noise source does not change masked softmax. -/
theorem maskedSoftmax_noise (e : Engine)
    (n2 : ℚ → (Nat → Nat → ℚ) → Nat → Nat → ℚ)
    (n3 : ℚ → (Nat → Nat → Nat → ℚ) → Nat → Nat → Nat → ℚ)
    (n : Nat) (mask s : Nat → ℚ) :
    maskedSoftmax { e with noise2 := n2, noise3 := n3 } n mask s =
      maskedSoftmax e n mask s := rfl

/-- With attention-probability dropout 0, the noise source is irrelevant. -/
theorem attention_noise (e : Engine)
    (n2 : ℚ → (Nat → Nat → ℚ) → Nat → Nat → ℚ)
    (n3 : ℚ → (Nat → Nat → Nat → ℚ) → Nat → Nat → Nat → ℚ)
    (wq wk wv : Nat → Nat → ℚ) (src dest : Mat) (mask : T3)
    (nh c bs sl dl : Nat) :
    attention { e with noise2 := n2, noise3 := n3 } wq wk wv src dest mask nh c 0
        bs sl dl =
      attention e wq wk wv src dest mask nh c 0 bs sl dl := rfl

/-- With both dropout probabilities 0, one layer step ignores the noise source. -/
theorem transformerStep_noise (e : Engine)
    (n2 : ℚ → (Nat → Nat → ℚ) → Nat → Nat → ℚ)
    (n3 : ℚ → (Nat → Nat → Nat → ℚ) → Nat → Nat → Nat → ℚ)
    (lw : LayerWeights) (mask : T3) (c nh ffc bs sl : Nat) (act : ℚ → ℚ)
    (x : Mat) :
    transformerStep { e with noise2 := n2, noise3 := n3 } lw mask c nh ffc act bs
        sl 0 0 x =
      transformerStep e lw mask c nh ffc act bs sl 0 0 x := rfl

/-- GELU only reads the deterministic engine primitives. -/
theorem gelu_noise (e : Engine)
    (n2 : ℚ → (Nat → Nat → ℚ) → Nat → Nat → ℚ)
    (n3 : ℚ → (Nat → Nat → Nat → ℚ) → Nat → Nat → Nat → ℚ) :
    F.gelu { e with noise2 := n2, noise3 := n3 } = F.gelu e := rfl

/-- With dropout 0, the embedding stage ignores the noise source. -/
theorem token_type_pos_emb_noise (e : Engine)
    (n2 : ℚ → (Nat → Nat → ℚ) → Nat → Nat → ℚ)
    (n3 : ℚ → (Nat → Nat → Nat → ℚ) → Nat → Nat → Nat → ℚ)
    (tt pt : Nat → Nat → ℚ) (g b : Nat → ℚ) (x : T3) (ids : T2N)
    (tvs msl : Nat) :
    token_type_pos_emb { e with noise2 := n2, noise3 := n3 } tt pt g b x ids tvs
        msl 0 =
      token_type_pos_emb e tt pt g b x ids tvs msl 0 := rfl

/-- With both dropout probabilities 0, the layer loop ignores the noise source. -/
theorem transformerPasses_noise (e : Engine)
    (n2 : ℚ → (Nat → Nat → ℚ) → Nat → Nat → ℚ)
    (n3 : ℚ → (Nat → Nat → Nat → ℚ) → Nat → Nat → Nat → ℚ)
    (W : Nat → LayerWeights) (mask : T3) (c nh ffc : Nat) (act : ℚ → ℚ)
    (bs sl : Nat) (x0 : Mat) (n : Nat) :
    transformerPasses { e with noise2 := n2, noise3 := n3 } W mask c nh ffc act bs
        sl 0 0 x0 n =
      transformerPasses e W mask c nh ffc act bs sl 0 0 x0 n := by
  induction n with
  | zero => rfl
  | succ n ih =>
    simp only [transformerPasses, ih]
    exact transformerStep_noise e n2 n3 (W n) mask c nh ffc bs sl act
      (transformerPasses e W mask c nh ffc act bs sl 0 0 x0 n)

/-- With both dropout probabilities 0, all layer outputs ignore the noise source. -/
theorem transformerOutputs_noise (e : Engine)
    (n2 : ℚ → (Nat → Nat → ℚ) → Nat → Nat → ℚ)
    (n3 : ℚ → (Nat → Nat → Nat → ℚ) → Nat → Nat → Nat → ℚ)
    (W : Nat → LayerWeights) (mask : T3) (c nh ffc : Nat) (act : ℚ → ℚ)
    (bs sl : Nat) (x0 : Mat) (n : Nat) :
    transformerOutputs { e with noise2 := n2, noise3 := n3 } W mask c nh ffc act
        bs sl 0 0 x0 n =
      transformerOutputs e W mask c nh ffc act bs sl 0 0 x0 n := by
  induction n with
  | zero => rfl
  | succ n ih =>
    simp only [transformerOutputs, ih, transformerPasses_noise]

/-- With both dropout probabilities 0, the encoder stack ignores the noise source. -/
theorem transformer_all_noise (e : Engine)
    (n2 : ℚ → (Nat → Nat → ℚ) → Nat → Nat → ℚ)
    (n3 : ℚ → (Nat → Nat → Nat → ℚ) → Nat → Nat → Nat → ℚ)
    (W : Nat → LayerWeights) (x : T3) (mask : T3) (c num nh ffc : Nat)
    (act : ℚ → ℚ) :
    transformer_all { e with noise2 := n2, noise3 := n3 } W x mask c num nh ffc
        act 0 0 =
      transformer_all e W x mask c num nh ffc act 0 0 := by
  simp only [transformer_all]
  rw [transformerOutputs_noise]

/-- With is_training=false, the encoder pipeline ignores the noise source. -/
theorem bertEncoderPipeline_noise (e : Engine)
    (n2 : ℚ → (Nat → Nat → ℚ) → Nat → Nat → ℚ)
    (n3 : ℚ → (Nat → Nat → Nat → ℚ) → Nat → Nat → Nat → ℚ)
    (W : BertWeights) (config : BertConfig) (ids : T2N) (im tti : Option T2N) :
    bertEncoderPipeline { e with noise2 := n2, noise3 := n3 } W config false ids
        im tti =
      bertEncoderPipeline e W config false ids im tti := by
  simp only [bertEncoderPipeline]
  rw [show (bertEffectiveConfig (deepcopy config) false).hidden_dropout_prob = 0
      from rfl,
    show (bertEffectiveConfig (deepcopy config) false).attention_probs_dropout_prob
      = 0 from rfl,
    token_type_pos_emb_noise, gelu_noise]
  cases token_type_pos_emb e W.token_type_table W.pos_table W.emb_ln_g W.emb_ln_b
      (word_emb W.word_table ids
        (bertEffectiveConfig (deepcopy config) false).hidden_size).1
      (tti.getD (zerosT2N ids.d0 ids.d1))
      (bertEffectiveConfig (deepcopy config) false).type_vocab_size
      (bertEffectiveConfig (deepcopy config) false).max_position_embeddings 0 with
  | error e2 => rfl
  | ok eo =>
    dsimp only
    rw [transformer_all_noise e n2 n3 W.layer]

/-- C9: with is_training=False the working config has both dropout probabilities 0,
dropout at probability 0 is the identity, and both the encoder pipeline and the full
construction are unchanged when the engine noise source is replaced: the forward
pass with dropout disabled is a deterministic function of weights and inputs. -/
theorem c9_inference_determinism (e : Engine)
    (n2 : ℚ → (Nat → Nat → ℚ) → Nat → Nat → ℚ)
    (n3 : ℚ → (Nat → Nat → Nat → ℚ) → Nat → Nat → Nat → ℚ)
    (W : BertWeights) (config : BertConfig) (ids : T2N) (im tti : Option T2N)
    (p2 : Nat → Nat → ℚ) (p3 : Nat → Nat → Nat → ℚ) :
    (bertEffectiveConfig (deepcopy config) false).hidden_dropout_prob = 0 ∧
    (bertEffectiveConfig (deepcopy config) false).attention_probs_dropout_prob = 0 ∧
    dropoutFn e 0 p2 = p2 ∧
    dropoutFn3 e 0 p3 = p3 ∧
    bertEncoderPipeline { e with noise2 := n2, noise3 := n3 } W config false ids
        im tti =
      bertEncoderPipeline e W config false ids im tti ∧
    BertModel.init { e with noise2 := n2, noise3 := n3 } W config false ids im
        tti =
      BertModel.init e W config false ids im tti := by
  refine ⟨rfl, rfl, rfl, rfl, bertEncoderPipeline_noise e n2 n3 W config ids im tti, ?_⟩
  simp only [BertModel.init]
  rw [bertEncoderPipeline_noise]

/-- With seq_len within bounds the embedding stage succeeds and preserves all three
dimensions of its input. -/
theorem token_type_pos_emb_ok_dims (env : Engine) (tt pt : Nat → Nat → ℚ)
    (g b : Nat → ℚ) (x : T3) (ids : T2N) (tvs msl : Nat) (p : ℚ)
    (hle : x.d1 ≤ msl) :
    ∃ y : T3, token_type_pos_emb env tt pt g b x ids tvs msl p = Except.ok y ∧
      y.d0 = x.d0 ∧ y.d1 = x.d1 ∧ y.d2 = x.d2 := by
  have h : token_type_pos_emb env tt pt g b x ids tvs msl p = Except.ok
      (layer_norm_and_dropout env g b p (t3AddMat (t3Add x ⟨x.d0, x.d1, x.d2,
        fun bi si j => (matmulF (one_hot (fun i => ids.val (i / ids.d1) (i % ids.d1))
          (x.d0 * x.d1) tvs) tt x.d2).val (bi * x.d1 + si) j⟩)
        ⟨x.d1, x.d2, pt⟩)) := by
    simp only [token_type_pos_emb, tfSliceRows, if_pos hle]
  exact ⟨_, h, rfl, rfl, rfl⟩

/-- The encoder produces exactly num_hidden_layers reshaped outputs. -/
theorem transformer_all_length (env : Engine) (W : Nat → LayerWeights)
    (x mask : T3) (c num nh ffc : Nat) (act : ℚ → ℚ) (hp ap : ℚ) :
    (transformer_all env W x mask c num nh ffc act hp ap).length = num := by
  simp [transformer_all, transformerOutputs_length]

/-- Every reshaped layer output carries the dimensions of the encoder input. -/
theorem transformer_all_mem_dims (env : Engine) (W : Nat → LayerWeights)
    (x mask : T3) (c num nh ffc : Nat) (act : ℚ → ℚ) (hp ap : ℚ) (y : T3)
    (hy : y ∈ transformer_all env W x mask c num nh ffc act hp ap) :
    y.d0 = x.d0 ∧ y.d1 = x.d1 ∧ y.d2 = x.d2 := by
  simp only [transformer_all, List.mem_map] at hy
  obtain ⟨m, hm, rfl⟩ := hy
  exact ⟨rfl, rfl, rfl⟩

/-- C4: with seq_len ≤ max_position_embeddings and at least one layer, the encoder
pipeline succeeds, produces one output per layer, and sequence_output (like every
per-layer output) has shape [batch, seq_len, hidden_size]; moreover each transformer
layer step maps a 2-d hidden state of shape [bs*seq_len, hidden] to a state of the
identical shape. -/
theorem c4_shape_invariance (env : Engine) (W : BertWeights) (config : BertConfig)
    (t : Bool) (ids : T2N) (im tti : Option T2N)
    (hseq : ids.d1 ≤ config.max_position_embeddings)
    (hlayers : 0 < config.num_hidden_layers) :
    (∃ eo ls so, bertEncoderPipeline env W config t ids im tti =
        Except.ok (eo, ls, so) ∧
      ls.length = config.num_hidden_layers ∧
      so.d0 = ids.d0 ∧ so.d1 = ids.d1 ∧ so.d2 = config.hidden_size ∧
      ∀ y ∈ ls, y.d0 = ids.d0 ∧ y.d1 = ids.d1 ∧ y.d2 = config.hidden_size) ∧
    (∀ (lw : LayerWeights) (mask : T3) (c nh ffc : Nat) (act : ℚ → ℚ)
      (bs sl : Nat) (hp ap : ℚ) (x : Mat), x.rows = bs * sl → x.cols = c →
      (transformerStep env lw mask c nh ffc act bs sl hp ap x).rows = x.rows ∧
      (transformerStep env lw mask c nh ffc act bs sl hp ap x).cols = x.cols) := by
  constructor
  · have hmax : (bertEffectiveConfig (deepcopy config) t).max_position_embeddings
        = config.max_position_embeddings := by cases t <;> rfl
    have hhid : (bertEffectiveConfig (deepcopy config) t).hidden_size
        = config.hidden_size := by cases t <;> rfl
    have hnum : (bertEffectiveConfig (deepcopy config) t).num_hidden_layers
        = config.num_hidden_layers := by cases t <;> rfl
    obtain ⟨y, hy, hd0, hd1, hd2⟩ := token_type_pos_emb_ok_dims env
      W.token_type_table W.pos_table W.emb_ln_g W.emb_ln_b
      (word_emb W.word_table ids
        (bertEffectiveConfig (deepcopy config) t).hidden_size).1
      (tti.getD (zerosT2N ids.d0 ids.d1))
      (bertEffectiveConfig (deepcopy config) t).type_vocab_size
      (bertEffectiveConfig (deepcopy config) t).max_position_embeddings
      (bertEffectiveConfig (deepcopy config) t).hidden_dropout_prob
      (by rw [hmax]; exact hseq)
    have hy0 : y.d0 = ids.d0 := hd0
    have hy1 : y.d1 = ids.d1 := hd1
    have hy2 : y.d2 = config.hidden_size := by
      rw [hd2]
      show 1 * (bertEffectiveConfig (deepcopy config) t).hidden_size =
        config.hidden_size
      rw [Nat.one_mul, hhid]
    simp only [bertEncoderPipeline]
    rw [hy]
    dsimp only
    have hlen := transformer_all_length env W.layer y
      (create_attention_mask ids.d0 ids.d1 (im.getD (onesT2N ids.d0 ids.d1)))
      (bertEffectiveConfig (deepcopy config) t).hidden_size
      (bertEffectiveConfig (deepcopy config) t).num_hidden_layers
      (bertEffectiveConfig (deepcopy config) t).num_attention_heads
      (bertEffectiveConfig (deepcopy config) t).intermediate_size
      (F.gelu env)
      (bertEffectiveConfig (deepcopy config) t).hidden_dropout_prob
      (bertEffectiveConfig (deepcopy config) t).attention_probs_dropout_prob
    have hne : transformer_all env W.layer y
        (create_attention_mask ids.d0 ids.d1 (im.getD (onesT2N ids.d0 ids.d1)))
        (bertEffectiveConfig (deepcopy config) t).hidden_size
        (bertEffectiveConfig (deepcopy config) t).num_hidden_layers
        (bertEffectiveConfig (deepcopy config) t).num_attention_heads
        (bertEffectiveConfig (deepcopy config) t).intermediate_size
        (F.gelu env)
        (bertEffectiveConfig (deepcopy config) t).hidden_dropout_prob
        (bertEffectiveConfig (deepcopy config) t).attention_probs_dropout_prob
        ≠ [] := by
      intro h0
      rw [h0] at hlen
      rw [hnum] at hlen
      simp at hlen
      omega
    rw [List.getLast?_eq_getLast _ hne]
    dsimp only
    refine ⟨_, _, _, rfl, hlen.trans hnum, ?_, ?_, ?_, ?_⟩
    · exact (transformer_all_mem_dims _ _ _ _ _ _ _ _ _ _ _ _
        (List.getLast_mem hne)).1.trans hy0
    · exact (transformer_all_mem_dims _ _ _ _ _ _ _ _ _ _ _ _
        (List.getLast_mem hne)).2.1.trans hy1
    · exact (transformer_all_mem_dims _ _ _ _ _ _ _ _ _ _ _ _
        (List.getLast_mem hne)).2.2.trans hy2
    · intro z hz
      obtain ⟨hz0, hz1, hz2⟩ := transformer_all_mem_dims _ _ _ _ _ _ _ _ _ _ _ _ hz
      exact ⟨hz0.trans hy0, hz1.trans hy1, hz2.trans hy2⟩
  · intro lw mask c nh ffc act bs sl hp ap x hr hc
    exact ⟨hr.symm, hc.symm⟩

/-- C4 witness: the scenario config (hidden 8, 2 heads, 1 layer, batch 1, seq 4)
satisfies the bounds, and its pipeline yields [1, 4, 8]-shaped outputs. -/
theorem c4_shape_invariance_witness :
    (idsC3.d1 ≤ cfgC3.max_position_embeddings ∧ 0 < cfgC3.num_hidden_layers) ∧
    ∃ eo ls so, bertEncoderPipeline engineHat weightsHat cfgC3 false idsC3 none
        none = Except.ok (eo, ls, so) ∧
      ls.length = cfgC3.num_hidden_layers ∧
      so.d0 = idsC3.d0 ∧ so.d1 = idsC3.d1 ∧ so.d2 = cfgC3.hidden_size ∧
      ∀ y ∈ ls, y.d0 = idsC3.d0 ∧ y.d1 = idsC3.d1 ∧ y.d2 = cfgC3.hidden_size :=
  ⟨⟨by decide, by decide⟩,
    (c4_shape_invariance engineHat weightsHat cfgC3 false idsC3 none none
      (by decide) (by decide)).1⟩
